import Mathlib

/-!
Shallow embedding of the avalon-core host-integration scripts: the Photoshop
CEP panel script (client-side RPC routes dispatching ExtendScript snippets)
and the Harmony scripting shim AvalonHarmony.js. Definitions translate the
JavaScript source; theorems settle the specification claims about them.
-/

namespace AvalonCore

/-- The backslash character. -/
def bslash : Char := '\\'

/-- The single-quote character. -/
def squote : Char := '\''

/-- The double-quote character. -/
def dquote : Char := '"'

/-- Replace every occurrence of the character `c` by the character list `r`,
scanning left to right. This is the effect of a JavaScript global
single-character regex replace such as `str.replace(/x/g, r)`. -/
def replaceAll (c : Char) (r : List Char) : List Char → List Char
  | [] => []
  | d :: ds => if d = c then r ++ replaceAll c r ds else d :: replaceAll c r ds

/-- The character-list core of `EscapeStringForJSX` (part_000 lines 29-36):
replace backslash by double backslash, then single quote by
backslash-quote, then double quote by backslash-double-quote, as the three
chained global replaces of the source do. -/
def escChars (l : List Char) : List Char :=
  replaceAll dquote [bslash, dquote]
    (replaceAll squote [bslash, squote]
      (replaceAll bslash [bslash, bslash] l))

/-- part_000 lines 29-36: `EscapeStringForJSX(str)` returns
`str.replace(/\\/g, a double backslash).replace(/'/g, backslash quote)
.replace(/"/g, backslash double quote)`. -/
def EscapeStringForJSX (str : String) : String :=
  String.mk (escChars str.data)

/-- The target scripting grammar's string-literal reader: a backslash
followed by a backslash, a single quote or a double quote decodes to that
second character; any other character stands for itself. -/
def unescapeJSX : List Char → List Char
  | [] => []
  | [c] => [c]
  | c :: d :: ds =>
    if c = bslash ∧ (d = bslash ∨ d = squote ∨ d = dquote) then
      d :: unescapeJSX ds
    else
      c :: unescapeJSX (d :: ds)

/-- `unescapeJSX` lifted to strings. -/
def unescapeJSXStr (s : String) : String :=
  String.mk (unescapeJSX s.data)

/-- The data object a server call delivers to a route handler: the string
payload fields the part_000 route handlers read (JavaScript coerces the
numeric and boolean fields with the string concatenation operator, so each is
embedded as its coerced string form). Fields absent from a concrete call
default to the empty string. -/
structure PData where
  path : String := ""
  name : String := ""
  layer_id : String := ""
  visibility : String := ""
  layer : String := ""
  image_path : String := ""
  ext : String := ""
  as_copy : String := ""
  payload : String := ""
  layers : String := ""

/-- part_000 line 49: the open route's script text,
`"fileOpen('" + EscapeStringForJSX(data.path) + "')"`. -/
def openSnippet (data : PData) : String :=
  "fileOpen('" ++ EscapeStringForJSX data.path ++ "')"

/-- part_000 line 58: the read route's script text. -/
def readSnippet (_data : PData) : String :=
  "getHeadline()"

/-- part_000 line 67: the get_layers route's script text. -/
def getLayersSnippet (_data : PData) : String :=
  "getLayers()"

/-- part_000 lines 76-77: the set_visible route's script text,
`"setVisible(" + data.layer_id + ", " + data.visibility + ")"`. -/
def setVisibleSnippet (data : PData) : String :=
  "setVisible(" ++ data.layer_id ++ ", " ++ data.visibility ++ ")"

/-- part_000 line 87: the get_active_document_name route's script text. -/
def getActiveDocumentNameSnippet (_data : PData) : String :=
  "getActiveDocumentName()"

/-- part_000 line 97: the get_active_document_full_name route's script text. -/
def getActiveDocumentFullNameSnippet (_data : PData) : String :=
  "getActiveDocumentFullName()"

/-- part_000 line 107: the save route's script text. -/
def saveSnippet (_data : PData) : String :=
  "save()"

/-- part_000 line 117: the get_selected_layers route's script text. -/
def getSelectedLayersSnippet (_data : PData) : String :=
  "getSelectedLayers()"

/-- part_000 line 127: the create_group route's script text,
`"createGroup('" + data.name + "')"` — the raw name, not its escaped form. -/
def createGroupSnippet (data : PData) : String :=
  "createGroup('" ++ data.name ++ "')"

/-- part_000 lines 138-139: the group_selected_layers route's script text,
`"groupSelectedLayers(null, " + "'" + data.name + "')"` — the raw name. -/
def groupSelectedLayersSnippet (data : PData) : String :=
  "groupSelectedLayers(null, " ++ "'" ++ data.name ++ "')"

/-- part_000 line 149: the import_smart_object route's script text. -/
def importSmartObjectSnippet (data : PData) : String :=
  "importSmartObject('" ++ EscapeStringForJSX data.path ++ "')"

/-- part_000 lines 159-160: the replace_smart_object route's script text,
with the raw `data.layer` and the escaped `data.path`. -/
def replaceSmartObjectSnippet (data : PData) : String :=
  "replaceSmartObjects('" ++ data.layer ++ "'," ++
    "'" ++ EscapeStringForJSX data.path ++ "')"

/-- part_000 line 170: the select_layers route's script text — the fixed
text `selectLayers()`, with nothing from `data` substituted in. -/
def selectLayersSnippet (_data : PData) : String :=
  "selectLayers()"

/-- part_000 line 180: the is_saved route's script text. -/
def isSavedSnippet (_data : PData) : String :=
  "isSaved()"

/-- part_000 lines 190-192: the saveAs route's script text, with the escaped
`data.image_path` and the raw `data.ext` and `data.as_copy`. -/
def saveAsSnippet (data : PData) : String :=
  "saveAs('" ++ EscapeStringForJSX data.image_path ++ "', " ++
    "'" ++ data.ext ++ "', " ++ data.as_copy ++ ")"

/-- part_000 lines 201-202: the imprint route's script text: the payload with
every newline replaced by a backslash-n sequence, in single quotes. -/
def imprintSnippet (data : PData) : String :=
  "imprint('" ++ String.mk (replaceAll '\n' [bslash, 'n'] data.payload.data) ++ "')"

/-- The host engine oracle: the value the single `evalScript` callback
delivers for each script text. -/
def HostOracle := String → String

/-- What one handler invocation does: the scripts it dispatched to the host
engine, in order, and the settled state of its promise — `Except.ok` for a
resolution, `Except.error` for a rejection. -/
structure HandlerRun (α : Type) where
  scripts : List String
  result : Except String α

/-- part_000 lines 38-44: `runEvalScript(script)` returns a promise whose
executor calls `csInterface.evalScript(script, resolve)`: the script is
dispatched once, and the only settlement is a resolution with the value the
callback delivers (the executor never wires the reject continuation; any
host-side failure arrives encoded in the callback payload). -/
def runEvalScript (script : String) : HostOracle → HandlerRun String :=
  fun host => ⟨[script], Except.ok (host script)⟩

/-- Promise `.then` as the route handlers use it: map the resolution value
through the fulfillment callback, pass a rejection through unchanged. -/
def promiseThen (m : HostOracle → HandlerRun String) (f : String → String) :
    HostOracle → HandlerRun String :=
  fun host =>
    let o := m host
    ⟨o.scripts, o.result.map f⟩

/-- part_000 lines 46-54: the open route handler. Its `.then` callback logs
and returns the result unchanged. -/
def openHandler (data : PData) : HostOracle → HandlerRun String :=
  promiseThen (runEvalScript (openSnippet data)) (fun result => result)

/-- part_000 lines 56-63: the read route handler. -/
def readHandler (data : PData) : HostOracle → HandlerRun String :=
  promiseThen (runEvalScript (readSnippet data)) (fun result => result)

/-- part_000 lines 65-72: the get_layers route handler. -/
def getLayersHandler (data : PData) : HostOracle → HandlerRun String :=
  promiseThen (runEvalScript (getLayersSnippet data)) (fun result => result)

/-- part_000 lines 74-82: the set_visible route handler. -/
def setVisibleHandler (data : PData) : HostOracle → HandlerRun String :=
  promiseThen (runEvalScript (setVisibleSnippet data)) (fun result => result)

/-- part_000 lines 84-92: the get_active_document_name route handler. -/
def getActiveDocumentNameHandler (data : PData) : HostOracle → HandlerRun String :=
  promiseThen (runEvalScript (getActiveDocumentNameSnippet data)) (fun result => result)

/-- part_000 lines 94-102: the get_active_document_full_name route handler. -/
def getActiveDocumentFullNameHandler (data : PData) : HostOracle → HandlerRun String :=
  promiseThen (runEvalScript (getActiveDocumentFullNameSnippet data)) (fun result => result)

/-- part_000 lines 104-112: the save route handler. -/
def saveHandler (data : PData) : HostOracle → HandlerRun String :=
  promiseThen (runEvalScript (saveSnippet data)) (fun result => result)

/-- part_000 lines 114-122: the get_selected_layers route handler. -/
def getSelectedLayersHandler (data : PData) : HostOracle → HandlerRun String :=
  promiseThen (runEvalScript (getSelectedLayersSnippet data)) (fun result => result)

/-- part_000 lines 124-132: the create_group route handler. -/
def createGroupHandler (data : PData) : HostOracle → HandlerRun String :=
  promiseThen (runEvalScript (createGroupSnippet data)) (fun result => result)

/-- part_000 lines 134-144: the group_selected_layers route handler. -/
def groupSelectedLayersHandler (data : PData) : HostOracle → HandlerRun String :=
  promiseThen (runEvalScript (groupSelectedLayersSnippet data)) (fun result => result)

/-- part_000 lines 146-154: the import_smart_object route handler. -/
def importSmartObjectHandler (data : PData) : HostOracle → HandlerRun String :=
  promiseThen (runEvalScript (importSmartObjectSnippet data)) (fun result => result)

/-- part_000 lines 156-165: the replace_smart_object route handler. -/
def replaceSmartObjectHandler (data : PData) : HostOracle → HandlerRun String :=
  promiseThen (runEvalScript (replaceSmartObjectSnippet data)) (fun result => result)

/-- part_000 lines 167-175: the select_layers route handler. -/
def selectLayersHandler (data : PData) : HostOracle → HandlerRun String :=
  promiseThen (runEvalScript (selectLayersSnippet data)) (fun result => result)

/-- part_000 lines 177-185: the is_saved route handler. -/
def isSavedHandler (data : PData) : HostOracle → HandlerRun String :=
  promiseThen (runEvalScript (isSavedSnippet data)) (fun result => result)

/-- part_000 lines 187-197: the saveAs route handler. -/
def saveAsHandler (data : PData) : HostOracle → HandlerRun String :=
  promiseThen (runEvalScript (saveAsSnippet data)) (fun result => result)

/-- part_000 lines 199-207: the imprint route handler. -/
def imprintHandler (data : PData) : HostOracle → HandlerRun String :=
  promiseThen (runEvalScript (imprintSnippet data)) (fun result => result)

/-- Every `RPC.addRoute` registration the panel script performs during
startup (part_000 lines 46-207), in source order: the registered method name
and the handler bound to it. -/
def routes : List (String × (PData → HostOracle → HandlerRun String)) :=
  [("Photoshop.open", openHandler),
   ("Photoshop.read", readHandler),
   ("Photoshop.get_layers", getLayersHandler),
   ("Photoshop.set_visible", setVisibleHandler),
   ("Photoshop.get_active_document_name", getActiveDocumentNameHandler),
   ("Photoshop.get_active_document_full_name", getActiveDocumentFullNameHandler),
   ("Photoshop.save", saveHandler),
   ("Photoshop.get_selected_layers", getSelectedLayersHandler),
   ("Photoshop.create_group", createGroupHandler),
   ("Photoshop.group_selected_layers", groupSelectedLayersHandler),
   ("Photoshop.import_smart_object", importSmartObjectHandler),
   ("Photoshop.replace_smart_object", replaceSmartObjectHandler),
   ("Photoshop.select_layers", selectLayersHandler),
   ("Photoshop.is_saved", isSavedHandler),
   ("Photoshop.saveAs", saveAsHandler),
   ("Photoshop.imprint", imprintHandler)]

/-- The WSRPC channel object as the panel constructs it: an endpoint url and
the deadline argument of the constructor. -/
structure WSRPC where
  url : String
  deadline : Nat

/-- part_000 line 15: `var url = 'ws://localhost:8099/ws/'`. -/
def url : String := "ws://localhost:8099/ws/"

/-- part_000 line 16: `RPC = new WSRPC(url, 5000)`. -/
def RPC : WSRPC := WSRPC.mk url 5000

/-- The Harmony node enable-states, one boolean per node path, as read and
written through `node.getEnable` / `node.setEnable`. -/
def NodeEnv := String → Bool

/-- The effect of `node.setEnable(n, b)` on the enable-states. -/
def setEnable (env : NodeEnv) (n : String) (b : Bool) : NodeEnv :=
  fun m => if m = n then b else env m

/-- The loop body of `AvalonHarmony.setState` (AvalonHarmony.js lines
144-146): perform `node.setEnable(nodes[i], states[i])` for each index in
order. -/
def setStateLoop (env : NodeEnv) : List (String × Bool) → NodeEnv
  | [] => env
  | p :: rest => setStateLoop (setEnable env p.1 p.2) rest

/-- AvalonHarmony.js lines 137-148: `AvalonHarmony.setState(args)` with
`nodes = args[0]` and `states = args[1]` returns `false` before touching any
node when the lengths differ, and otherwise sets each node's enable state and
returns `true`. The returned pair is (return value, enable-states after). -/
def setState (env : NodeEnv) (nodes : List String) (states : List Bool) :
    Bool × NodeEnv :=
  if nodes.length ≠ states.length then (false, env)
  else (true, setStateLoop env (nodes.zip states))

/-- One entry of Harmony's scene metadata table, with the fields
`scene.setMetadata` receives (AvalonHarmony.js lines 34-40). -/
structure MetaEntry where
  name : String
  kind : String
  creator : String
  version : String
  value : String

/-- Harmony's scene metadata store, keyed by entry name: `scene.metadata(k)`
is the lookup, an absent entry being the falsy branch of the source. -/
def SceneStore := String → Option MetaEntry

/-- The effect of `scene.setMetadata(e)`: the store afterwards answers `e`
for `e.name` and is unchanged elsewhere. -/
def setMetadata (st : SceneStore) (e : MetaEntry) : SceneStore :=
  fun k => if k = e.name then some e else st k

/-- AvalonHarmony.js lines 18-25: `AvalonHarmony.getSceneData()` reads
`scene.metadata('avalon')`; when present it returns `JSON.parse` of its
value, else the empty object. `JSON.parse` is abstracted as `parse` and the
empty object literal as `empty`. -/
def getSceneData {J : Type} (parse : String → J) (empty : J)
    (st : SceneStore) : J :=
  match st "avalon" with
  | some metadata => parse metadata.value
  | none => empty

/-- AvalonHarmony.js lines 33-41: `AvalonHarmony.setSceneData(metadata)`
stores an entry named avalon of kind string, creator Avalon, version 1.0,
whose value is `JSON.stringify(metadata)`. -/
def setSceneData {J : Type} (stringify : J → String) (st : SceneStore)
    (metadata : J) : SceneStore :=
  setMetadata st (MetaEntry.mk "avalon" "string" "Avalon" "1.0" (stringify metadata))

/-- The sequence of column names `AvalonHarmony.getUniqueColumnName` tries:
the prefix itself first, then the prefix, an underscore and the suffix. -/
def candName (colPrefix : String) (i : Nat) : String :=
  if i = 0 then colPrefix else colPrefix ++ "_" ++ toString i

/-- The while loop of `AvalonHarmony.getUniqueColumnName` (AvalonHarmony.js
lines 259-266), with `column.type`'s truthiness abstracted as `ctype` and the
remaining iteration budget `2000 - suffix` made an explicit fuel argument.
The result pairs the returned column name with the number of `column.type`
examinations performed. -/
def getUniqueColumnNameGo (ctype : String → Bool) (colPrefix : String) :
    Nat → Nat → String → Nat → String × Nat
  | 0, _, columnName, checks => (columnName, checks)
  | fuel + 1, suffix, columnName, checks =>
    if ctype columnName = false then (columnName, checks + 1)
    else
      getUniqueColumnNameGo ctype colPrefix fuel (suffix + 1)
        (colPrefix ++ "_" ++ toString (suffix + 1)) (checks + 1)

/-- AvalonHarmony.js lines 255-268: `AvalonHarmony.getUniqueColumnName`,
starting from suffix 0 and the prefix itself as the first candidate. -/
def getUniqueColumnName (ctype : String → Bool) (colPrefix : String) :
    String × Nat :=
  getUniqueColumnNameGo ctype colPrefix 2000 0 colPrefix 0

theorem replaceAll_append (c : Char) (r xs ys : List Char) :
    replaceAll c r (xs ++ ys) = replaceAll c r xs ++ replaceAll c r ys := by
  induction xs with
  | nil => simp [replaceAll]
  | cons d ds ih =>
    by_cases hd : d = c <;> simp [replaceAll, hd, ih]

theorem escChars_append (xs ys : List Char) :
    escChars (xs ++ ys) = escChars xs ++ escChars ys := by
  simp [escChars, replaceAll_append]

theorem escChars_cons (c : Char) (l : List Char) :
    escChars (c :: l) = escChars [c] ++ escChars l := by
  have h : c :: l = [c] ++ l := rfl
  rw [h, escChars_append]

theorem unescapeJSX_cons_plain (c : Char) (t : List Char) (hc : ¬c = bslash) :
    unescapeJSX (c :: t) = c :: unescapeJSX t := by
  cases t with
  | nil => simp [unescapeJSX]
  | cons d ds => simp [unescapeJSX, hc]

theorem unescapeJSX_cons_pair (d : Char) (t : List Char)
    (hd : d = bslash ∨ d = squote ∨ d = dquote) :
    unescapeJSX (bslash :: d :: t) = d :: unescapeJSX t := by
  simp [unescapeJSX, hd]

theorem escChars_other (c : Char) (h1 : ¬c = bslash) (h2 : ¬c = squote)
    (h3 : ¬c = dquote) : escChars [c] = [c] := by
  simp [escChars, replaceAll, h1, h2, h3]

theorem unescapeJSX_escChars (l : List Char) : unescapeJSX (escChars l) = l := by
  induction l with
  | nil => simp [escChars, replaceAll, unescapeJSX]
  | cons c l ih =>
    rw [escChars_cons]
    by_cases h1 : c = bslash
    · subst h1
      have e : escChars [bslash] = [bslash, bslash] := by decide
      rw [e]
      show unescapeJSX (bslash :: bslash :: escChars l) = bslash :: l
      rw [unescapeJSX_cons_pair _ _ (Or.inl rfl), ih]
    · by_cases h2 : c = squote
      · subst h2
        have e : escChars [squote] = [bslash, squote] := by decide
        rw [e]
        show unescapeJSX (bslash :: squote :: escChars l) = squote :: l
        rw [unescapeJSX_cons_pair _ _ (Or.inr (Or.inl rfl)), ih]
      · by_cases h3 : c = dquote
        · subst h3
          have e : escChars [dquote] = [bslash, dquote] := by decide
          rw [e]
          show unescapeJSX (bslash :: dquote :: escChars l) = dquote :: l
          rw [unescapeJSX_cons_pair _ _ (Or.inr (Or.inr rfl)), ih]
        · rw [escChars_other c h1 h2 h3]
          show unescapeJSX (c :: escChars l) = c :: l
          rw [unescapeJSX_cons_plain c _ h1, ih]

/-- C2: for every argument string containing backslashes or quote
characters, parsing `EscapeStringForJSX`'s output back with the target
scripting grammar's string-literal reader yields exactly the original
string. -/
theorem escape_roundtrip (s : String)
    (_h : bslash ∈ s.data ∨ squote ∈ s.data ∨ dquote ∈ s.data) :
    unescapeJSXStr (EscapeStringForJSX s) = s := by
  cases s with
  | mk l =>
    show String.mk (unescapeJSX (escChars l)) = String.mk l
    rw [unescapeJSX_escChars]

/-- Witness for C2 at the concrete input a backslash-b-quote. -/
theorem escape_roundtrip_witness :
    unescapeJSXStr (EscapeStringForJSX "a\\b\"") = "a\\b\"" :=
  escape_roundtrip "a\\b\"" (Or.inl (by decide))

/-- C3: on the path C:, backslash, temp, backslash, a, double-quoted b.psd,
`EscapeStringForJSX` doubles each backslash and prefixes each double quote
with a backslash; the open route substitutes exactly this escaped text into
its `fileOpen` snippet; and the grammar's reader recovers the literal
original path from the escaped text. -/
theorem open_route_escaping :
    EscapeStringForJSX "C:\\temp\\a\"b.psd\"" = "C:\\\\temp\\\\a\\\"b.psd\\\"" ∧
    openSnippet { path := "C:\\temp\\a\"b.psd\"" } =
      "fileOpen('C:\\\\temp\\\\a\\\"b.psd\\\"')" ∧
    unescapeJSXStr "C:\\\\temp\\\\a\\\"b.psd\\\"" = "C:\\temp\\a\"b.psd\"" := by
  refine ⟨by decide, by decide, by decide⟩

/-- C1 fails on the code: the create_group and group_selected_layers routes
interpolate the raw caller-supplied `data.name` into their single-quoted
snippet argument, not `EscapeStringForJSX(data.name)`; at the name O'Hara
the dispatched text differs from the escaped form the claim requires. -/
theorem create_group_unescaped :
    createGroupSnippet { name := "O'Hara" } = "createGroup('O'Hara')" ∧
    groupSelectedLayersSnippet { name := "O'Hara" } =
      "groupSelectedLayers(null, 'O'Hara')" ∧
    createGroupSnippet { name := "O'Hara" } ≠
      "createGroup('" ++ EscapeStringForJSX "O'Hara" ++ "')" := by
  refine ⟨by decide, by decide, by decide⟩

/-- C4 fails on the code: with the caller-supplied layer id 42 in the
payload, the select_layers route dispatches the fixed text selectLayers(),
and the id is nowhere in that dispatched script. -/
theorem select_layers_payload_ignored :
    selectLayersSnippet { layers := "42" } = "selectLayers()" ∧
    ¬ ("42".data <:+: "selectLayers()".data) := by
  refine ⟨rfl, by decide⟩

/-- C4 amended: the select_layers handler dispatches the fixed script
selectLayers() whatever the payload carries, and resolves with that
invocation's callback value; the caller-supplied ids never reach the
snippet. -/
theorem select_layers_fixed_script (data : PData) (host : HostOracle) :
    (selectLayersHandler data host).scripts = ["selectLayers()"] ∧
    (selectLayersHandler data host).result = Except.ok (host "selectLayers()") :=
  ⟨rfl, rfl⟩

/-- C6: every handler registered on the dispatcher performs exactly one
dispatch into the host engine and its pending promise settles by resolving
with the value that invocation's single callback delivers; the evalScript
bridge wires no separate rejection channel, so no rejection occurs — per
the spec, any host failure must be encoded in the callback payload. -/
theorem route_single_dispatch
    (r : String × (PData → HostOracle → HandlerRun String))
    (hr : r ∈ routes) (host : HostOracle) (data : PData) :
    ∃ s, (r.2 data host).scripts = [s] ∧
      (r.2 data host).result = Except.ok (host s) := by
  simp only [routes, List.mem_cons, List.not_mem_nil, or_false] at hr
  rcases hr with rfl | rfl | rfl | rfl | rfl | rfl | rfl | rfl | rfl | rfl |
    rfl | rfl | rfl | rfl | rfl | rfl <;>
    exact ⟨_, rfl, rfl⟩

/-- Witness for C6 at the open route with a constant host oracle. -/
theorem route_single_dispatch_witness :
    ∃ s, (openHandler {} (fun _ => "ok")).scripts = [s] ∧
      (openHandler {} (fun _ => "ok")).result = Except.ok "ok" :=
  route_single_dispatch ("Photoshop.open", openHandler) (List.Mem.head _)
    (fun _ => "ok") {}

/-- C7: the sixteen method names the panel script registers through
RPC.addRoute during startup are pairwise distinct — no name is registered
twice. -/
theorem route_names_registered_once : (routes.map Prod.fst).Nodup := by decide

/-- C8: the panel constructs its one WSRPC channel with the fixed deadline
argument 5000 for the initial connection window. -/
theorem rpc_deadline_5000 : RPC.deadline = 5000 := rfl

theorem mem_keys_zip {n : String} {nds : List String} {sts : List Bool}
    (h : n ∈ (nds.zip sts).map Prod.fst) : n ∈ nds := by
  obtain ⟨⟨a, b⟩, hp, rfl⟩ := List.mem_map.mp h
  exact (List.of_mem_zip hp).1

theorem setStateLoop_notmem (env : NodeEnv) (pairs : List (String × Bool))
    (n : String) (h : n ∉ pairs.map Prod.fst) :
    setStateLoop env pairs n = env n := by
  induction pairs generalizing env with
  | nil => rfl
  | cons p rest ih =>
    simp only [List.map_cons, List.mem_cons, not_or] at h
    show setStateLoop (setEnable env p.1 p.2) rest n = env n
    rw [ih (setEnable env p.1 p.2) h.2]
    simp [setEnable, h.1]

theorem setStateLoop_get (env : NodeEnv) (nodes : List String)
    (states : List Bool) (hnd : nodes.Nodup)
    (hlen : nodes.length = states.length) :
    ∀ i (hi : i < nodes.length) (hi2 : i < states.length),
      setStateLoop env (nodes.zip states) (nodes.get ⟨i, hi⟩) =
        states.get ⟨i, hi2⟩ := by
  induction nodes generalizing env states with
  | nil => intro i hi _; exact absurd hi (by simp)
  | cons nd nds ih =>
    cases states with
    | nil => simp at hlen
    | cons st sts =>
      intro i hi hi2
      have hnd2 := List.nodup_cons.mp hnd
      cases i with
      | zero =>
        show setStateLoop (setEnable env nd st) (nds.zip sts) nd = st
        rw [setStateLoop_notmem]
        · simp [setEnable]
        · intro hmem
          exact hnd2.1 (mem_keys_zip hmem)
      | succ j =>
        show setStateLoop (setEnable env nd st) (nds.zip sts)
          (nds.get ⟨j, _⟩) = sts.get ⟨j, _⟩
        exact ih (setEnable env nd st) sts hnd2.2 (by simpa using hlen) j _ _

/-- C5: when the nodes and states arrays differ in length, setState returns
false and leaves every node's enable state untouched (no partial
application); when the lengths agree it returns true and, for pairwise
distinct nodes, node i ends up carrying states i for every index. -/
theorem setState_spec (env : NodeEnv) (nodes : List String)
    (states : List Bool) :
    (nodes.length ≠ states.length → setState env nodes states = (false, env)) ∧
    (nodes.length = states.length → nodes.Nodup →
      (setState env nodes states).1 = true ∧
      ∀ i (hi : i < nodes.length) (hi2 : i < states.length),
        (setState env nodes states).2 (nodes.get ⟨i, hi⟩) =
          states.get ⟨i, hi2⟩) := by
  constructor
  · intro h
    simp [setState, h]
  · intro hlen hnd
    have hs : setState env nodes states =
        (true, setStateLoop env (nodes.zip states)) := by
      simp [setState, hlen]
    rw [hs]
    exact ⟨rfl, fun i hi hi2 => setStateLoop_get env nodes states hnd hlen i hi hi2⟩

/-- Witness for C5: a two-node success case and a mismatched-length failure
case at concrete inputs. -/
theorem setState_spec_witness :
    (setState (fun _ => false) ["a", "b"] [true, false]).2 "a" = true ∧
    setState (fun _ => false) ["a"] ([] : List Bool) =
      (false, fun _ => false) := by
  constructor
  · exact ((setState_spec (fun _ => false) ["a", "b"] [true, false]).2
      (by decide) (by decide)).2 0 (by decide) (by decide)
  · exact (setState_spec (fun _ => false) ["a"] []).1 (by decide)

/-- C9: for any metadata value that survives JSON serialization (parsing
its stringified form yields it back), setSceneData then getSceneData
returns it; and on a scene with no avalon metadata entry getSceneData
returns the empty object rather than failing. -/
theorem scene_data_roundtrip {J : Type} (stringify : J → String)
    (parse : String → J) (empty : J) (st : SceneStore) (m : J)
    (h : parse (stringify m) = m) :
    getSceneData parse empty (setSceneData stringify st m) = m ∧
    (st "avalon" = none → getSceneData parse empty st = empty) := by
  constructor
  · have e : setSceneData stringify st m "avalon" =
        some (MetaEntry.mk "avalon" "string" "Avalon" "1.0" (stringify m)) := by
      simp [setSceneData, setMetadata]
    unfold getSceneData
    rw [e]
    exact h
  · intro h0
    unfold getSceneData
    rw [h0]

/-- Witness for C9 with a constant codec on natural numbers and the empty
scene store. -/
theorem scene_data_roundtrip_witness :
    getSceneData (fun _ => (5 : Nat)) 0
        (setSceneData (fun _ => "x") (fun _ => none) 5) = 5 ∧
    ((fun _ => (none : Option MetaEntry)) "avalon" = none →
      getSceneData (fun _ => (5 : Nat)) 0 (fun _ => none) = 0) :=
  scene_data_roundtrip (fun _ => "x") (fun _ => (5 : Nat)) 0 (fun _ => none) 5 rfl

theorem go_checks_le (ctype : String → Bool) (colPrefix : String) :
    ∀ fuel suffix name checks,
      (getUniqueColumnNameGo ctype colPrefix fuel suffix name checks).2 ≤
        checks + fuel := by
  intro fuel
  induction fuel with
  | zero =>
    intro suffix name checks
    simp [getUniqueColumnNameGo]
  | succ f ih =>
    intro suffix name checks
    by_cases h : ctype name = false
    · simp only [getUniqueColumnNameGo, if_pos h]
      omega
    · simp only [getUniqueColumnNameGo, if_neg h]
      calc (getUniqueColumnNameGo ctype colPrefix f (suffix + 1)
              (colPrefix ++ "_" ++ toString (suffix + 1)) (checks + 1)).2
          ≤ (checks + 1) + f := ih (suffix + 1) _ (checks + 1)
        _ ≤ checks + (f + 1) := by omega

theorem go_first_free (ctype : String → Bool) (colPrefix : String) :
    ∀ fuel suffix checks, suffix + fuel = 2000 →
      ∀ i, suffix ≤ i → i ≤ 2000 →
        (∀ j, suffix ≤ j → j < i → ctype (candName colPrefix j) = true) →
        ctype (candName colPrefix i) = false →
        (getUniqueColumnNameGo ctype colPrefix fuel suffix
            (candName colPrefix suffix) checks).1 = candName colPrefix i := by
  intro fuel
  induction fuel with
  | zero =>
    intro suffix checks hsum i hsi hi _ _
    have hieq : i = suffix := by omega
    subst hieq
    rfl
  | succ f ih =>
    intro suffix checks hsum i hsi hi hall hfree
    by_cases hc : ctype (candName colPrefix suffix) = false
    · have hieq : i = suffix := by
        by_contra hne
        have hlt : suffix < i := by omega
        have ht := hall suffix (Nat.le_refl _) hlt
        rw [ht] at hc
        simp at hc
      subst hieq
      simp only [getUniqueColumnNameGo, if_pos hc]
    · have hne : ¬ i = suffix := by
        intro he
        rw [he] at hfree
        exact hc hfree
      simp only [getUniqueColumnNameGo, if_neg hc]
      have hcand : colPrefix ++ "_" ++ toString (suffix + 1) =
          candName colPrefix (suffix + 1) := by
        simp [candName]
      rw [hcand]
      exact ih (suffix + 1) (checks + 1) (by omega) i (by omega) hi
        (fun j hj1 hj2 => hall j (by omega) hj2) hfree

theorem go_all_taken (ctype : String → Bool) (colPrefix : String) :
    ∀ fuel suffix checks, suffix + fuel = 2000 →
      (∀ j, suffix ≤ j → j < 2000 → ctype (candName colPrefix j) = true) →
      (getUniqueColumnNameGo ctype colPrefix fuel suffix
          (candName colPrefix suffix) checks).1 = candName colPrefix 2000 := by
  intro fuel
  induction fuel with
  | zero =>
    intro suffix checks hsum _
    have hseq : suffix = 2000 := by omega
    subst hseq
    rfl
  | succ f ih =>
    intro suffix checks hsum hall
    have hc : ctype (candName colPrefix suffix) = true :=
      hall suffix (Nat.le_refl _) (by omega)
    have hc2 : ¬ ctype (candName colPrefix suffix) = false := by simp [hc]
    simp only [getUniqueColumnNameGo, if_neg hc2]
    have hcand : colPrefix ++ "_" ++ toString (suffix + 1) =
        candName colPrefix (suffix + 1) := by
      simp [candName]
    rw [hcand]
    exact ih (suffix + 1) (checks + 1) (by omega)
      (fun j hj1 hj2 => hall j (by omega) hj2)

/-- C10: getUniqueColumnName examines at most 2001 candidate names before
terminating (in fact at most 2000: the prefix and then the underscore-suffix
names up to 1999); it returns the first candidate in the sequence for which
no column exists, and when every examined candidate is taken it falls back
to the suffix-2000 name even though that name was never checked for
uniqueness. -/
theorem getUniqueColumnName_spec (ctype : String → Bool) (colPrefix : String) :
    (getUniqueColumnName ctype colPrefix).2 ≤ 2001 ∧
    (∀ i, i ≤ 2000 →
      (∀ j, j < i → ctype (candName colPrefix j) = true) →
      ctype (candName colPrefix i) = false →
      (getUniqueColumnName ctype colPrefix).1 = candName colPrefix i) ∧
    ((∀ j, j < 2000 → ctype (candName colPrefix j) = true) →
      (getUniqueColumnName ctype colPrefix).1 = candName colPrefix 2000) := by
  refine ⟨?_, ?_, ?_⟩
  · have hle := go_checks_le ctype colPrefix 2000 0 colPrefix 0
    unfold getUniqueColumnName
    omega
  · intro i hi hall hfree
    unfold getUniqueColumnName
    exact go_first_free ctype colPrefix 2000 0 0 (by omega) i (by omega) hi
      (fun j hj1 hj2 => hall j hj2) hfree
  · intro hall
    unfold getUniqueColumnName
    exact go_all_taken ctype colPrefix 2000 0 0 (by omega)
      (fun j hj1 hj2 => hall j hj2)

/-- Witness for C10: with exactly the column col existing, the loop skips
the taken prefix and returns the suffix-1 name. -/
theorem getUniqueColumnName_spec_witness :
    (getUniqueColumnName (fun s => decide (s = "col")) "col").1 = "col_1" := by
  have h := (getUniqueColumnName_spec (fun s => decide (s = "col")) "col").2.1 1
    (by omega)
    (by
      intro j hj
      have hj0 : j = 0 := by omega
      subst hj0
      decide)
    (by decide)
  exact h.trans (by decide)

end AvalonCore
